import Mathlib

/-!
Verification of the MoonTheif exoplanet explorer against its specification.

The development shallowly embeds the logic of `src/pages/Explorer.tsx` and
`src/components/universe-viewer.tsx`:

* JavaScript numbers are modelled as rationals (`ℚ`); the scene positions,
  which the source computes with `Math.cos`/`Math.sin`/`Math.PI`, live in `ℝ`.
* `Math.random()` draws are modelled by an explicit stream `rand : ℕ → ℚ`
  (the n-th call of a generation pass reads `rand n`).
* The React `useState` cells of the `Explorer` component are gathered into an
  explicit `ExplorerState` record; each event handler becomes a state
  transition function.
* Toast notifications are returned as explicit values.
* Display-string formatting (`Number.prototype.toFixed`, `toString`) is
  modelled by exact decimal rounding over `ℚ`; binary floating point itself is
  out of scope of the embedding.
-/

/-- One row of the NASA archive payload, `NASAExoplanetData` in
`Explorer.tsx` (lines 15-27).  Numeric fields are rationals. -/
structure NASAExoplanetData where
  kepoi_name : String
  koi_period : ℚ
  koi_prad : ℚ
  koi_teq : ℚ
  koi_steff : ℚ
  koi_srad : ℚ
  koi_insol : ℚ
  koi_disposition : String
  koi_kepmag : ℚ
  ra_str : String
  dec_str : String
deriving DecidableEq, Repr

/-- A `(label, value, unit)` display triple, the element type of the `stats`
arrays in `Explorer.tsx`.  The `value` is a formatted string as in the
source; a missing `unit` is the empty string. -/
structure StatEntry where
  label : String
  value : String
  unit : String
deriving DecidableEq, Repr

/-- One slice of the atmosphere pie chart, element type of the arrays built
by `generateAtmosphereData` (`Explorer.tsx`, lines 205-228). -/
structure AtmosphereComponent where
  component : String
  percentage : ℚ
deriving DecidableEq, Repr

/-- One point of the temperature-history series (`Explorer.tsx`,
lines 300-305). -/
structure TempPoint where
  period : String
  temperature : ℚ
deriving DecidableEq, Repr

/-- One habitability bar (`Explorer.tsx`, lines 237-242); the value is the
result of `Math.round`, hence an integer. -/
structure MetricEntry where
  metric : String
  value : ℤ
deriving DecidableEq, Repr

/-- The detail-view payload, `ExoplanetData` in `Explorer.tsx`
(lines 29-51). -/
structure ExoplanetData where
  name : String
  keyPoints : List String
  stats : List StatEntry
  color : String
  temperature : ℚ
  atmosphereData : List AtmosphereComponent
  temperatureHistory : List TempPoint
  habitabilityMetrics : List MetricEntry
deriving DecidableEq, Repr

/-- JavaScript `String.prototype.includes`: substring containment.  Both the
haystack and the needle are given already lower-cased by the callers that
implement case-insensitive search. -/
def strIncludes (haystack needle : String) : Bool :=
  decide (needle.data <:+: haystack.data)

/-- JavaScript `Math.round`: round half toward positive infinity. -/
def jsRound (q : ℚ) : ℤ :=
  Int.floor (q + 1/2)

/-- JavaScript `Number.prototype.toFixed d`: decimal rendering with `d`
fractional digits, ties rounded toward the larger value (idealised over `ℚ`;
the double-precision representation step is out of scope). -/
def toFixed (q : ℚ) (d : ℕ) : String :=
  let n : ℤ := Int.floor (q * (10 : ℚ) ^ d + 1/2)
  let sign := if n < 0 then "-" else ""
  let m := n.natAbs
  if d = 0 then
    sign ++ toString m
  else
    let ip := m / 10 ^ d
    let fp := m % 10 ^ d
    let fpStr := toString fp
    let pad := String.mk (List.replicate (d - fpStr.length) '0')
    sign ++ toString ip ++ "." ++ pad ++ fpStr

/-- JavaScript `Number.prototype.toString` on the dataset values (idealised:
integral rationals print as integers, other values fall back to six-digit
fixed rendering; no claim depends on this formatting). -/
def jsNumToString (q : ℚ) : String :=
  if q.den = 1 then toString q.num else toFixed q 6

/-- `getPlanetColor` from `Explorer.tsx` (lines 192-202), verbatim branch
structure, including the redundant `< 230` branch that also yields
`"cyan"`.  The source labels `"yellowgreen"` and `"redorange"` are the
spec bands written there as "yellow-green" and "red-orange". -/
def getPlanetColor (temperature : ℚ) : String :=
  if temperature < 200 then "blue"
  else if temperature < 230 then "cyan"
  else if temperature < 260 then "cyan"
  else if temperature < 290 then "green"
  else if temperature < 320 then "yellowgreen"
  else if temperature < 350 then "yellow"
  else if temperature < 400 then "orange"
  else if temperature < 500 then "redorange"
  else "red"

/-- The eight decreasing-threshold bands exactly as the spec sentence lists
them (spec §4.2): `<200→blue, <260→cyan, <290→green, <320→yellow-green,
<350→yellow, <400→orange, <500→red-orange, else red`.  This is the
comparison definition for the refinement claim C2 and is written from the
spec words, to be compared with `getPlanetColor` above. -/
def colorBandSpec (temperature : ℚ) : String :=
  if temperature < 200 then "blue"
  else if temperature < 260 then "cyan"
  else if temperature < 290 then "green"
  else if temperature < 320 then "yellowgreen"
  else if temperature < 350 then "yellow"
  else if temperature < 400 then "orange"
  else if temperature < 500 then "redorange"
  else "red"

/-- `generateAtmosphereData` from `Explorer.tsx` (lines 205-228): three
temperature regimes, each returning a fixed composition. -/
def generateAtmosphereData (temperature : ℚ) : List AtmosphereComponent :=
  if temperature < 220 then
    [⟨"N2", 45⟩, ⟨"CO2", 35⟩, ⟨"H2O", 15⟩, ⟨"CH4", 5⟩]
  else if temperature < 280 then
    [⟨"H2O", 40⟩, ⟨"N2", 30⟩, ⟨"CO2", 20⟩, ⟨"O2", 10⟩]
  else
    [⟨"CO2", 50⟩, ⟨"H2O", 25⟩, ⟨"N2", 15⟩, ⟨"SO2", 10⟩]

/-- Sum of the character codes of a string: the `reduce` hash in
`getTextureForTemperature` (`universe-viewer.tsx`, line 78).  `charCodeAt`
is modelled by the code point (they agree on the identifiers at hand). -/
def charCodeSum (s : String) : ℕ :=
  (s.data.map Char.toNat).sum

/-- The five ice-blue texture assets (`universe-viewer.tsx`, line 82). -/
def planetIceBlueTextures : List String :=
  ["planet-ice-blue-1.jpg", "planet-ice-blue-2.jpg", "planet-ice-blue-3.jpg",
   "planet-ice-blue-4.jpg", "planet-ice-blue-5.jpg"]

/-- The five cyan-cold texture assets (`universe-viewer.tsx`, line 86). -/
def planetCyanColdTextures : List String :=
  ["planet-cyan-cold-1.jpg", "planet-cyan-cold-2.jpg", "planet-cyan-cold-3.jpg",
   "planet-cyan-cold-4.jpg", "planet-cyan-cold-5.jpg"]

/-- The five green-temperate texture assets (`universe-viewer.tsx`, line 90). -/
def planetGreenTemperateTextures : List String :=
  ["planet-green-temperate-1.jpg", "planet-green-temperate-2.jpg",
   "planet-green-temperate-3.jpg", "planet-green-temperate-4.jpg",
   "planet-green-temperate-5.jpg"]

/-- The five yellow-warm texture assets (`universe-viewer.tsx`, line 94). -/
def planetYellowWarmTextures : List String :=
  ["planet-yellow-warm-1.jpg", "planet-yellow-warm-2.jpg", "planet-yellow-warm-3.jpg",
   "planet-yellow-warm-4.jpg", "planet-yellow-warm-5.jpg"]

/-- The five orange-hot texture assets (`universe-viewer.tsx`, line 98). -/
def planetOrangeHotTextures : List String :=
  ["planet-orange-hot-1.jpg", "planet-orange-hot-2.jpg", "planet-orange-hot-3.jpg",
   "planet-orange-hot-4.jpg", "planet-orange-hot-5.jpg"]

/-- The five red-scorching texture assets (`universe-viewer.tsx`, line 101). -/
def planetRedScorchingTextures : List String :=
  ["planet-red-scorching-1.jpg", "planet-red-scorching-2.jpg",
   "planet-red-scorching-3.jpg", "planet-red-scorching-4.jpg",
   "planet-red-scorching-5.jpg"]

/-- `getTextureForTemperature` from `universe-viewer.tsx` (lines 76-103):
hash the planet id, take `hash % 5 + 1` as the variation, and index the
texture list of the temperature band with `variation - 1`. -/
def getTextureForTemperature (temp : ℚ) (planetId : String) : String :=
  let hash := charCodeSum planetId
  let variation := hash % 5 + 1
  if temp < 200 then planetIceBlueTextures.getD (variation - 1) ""
  else if temp < 260 then planetCyanColdTextures.getD (variation - 1) ""
  else if temp < 290 then planetGreenTemperateTextures.getD (variation - 1) ""
  else if temp < 350 then planetYellowWarmTextures.getD (variation - 1) ""
  else if temp < 450 then planetOrangeHotTextures.getD (variation - 1) ""
  else planetRedScorchingTextures.getD (variation - 1) ""

/-- The texture list a temperature selects in `getTextureForTemperature`
(same band thresholds as the source). -/
def textureBand (temp : ℚ) : List String :=
  if temp < 200 then planetIceBlueTextures
  else if temp < 260 then planetCyanColdTextures
  else if temp < 290 then planetGreenTemperateTextures
  else if temp < 350 then planetYellowWarmTextures
  else if temp < 450 then planetOrangeHotTextures
  else planetRedScorchingTextures

/-- C2: color classification is a pure, total, deterministic function of
temperature whose bands are exactly the decreasing thresholds of the spec
(`<200` blue, `<260` cyan, `<290` green, `<320` yellow-green, `<350` yellow,
`<400` orange, `<500` red-orange, else red); band boundaries are closed on
the lower bound, so 200K is not blue, 260K is green (not cyan), 150K is
blue and 500K is red. -/
theorem getPlanetColor_bands :
    (∀ t : ℚ, getPlanetColor t = colorBandSpec t) ∧
    getPlanetColor 200 ≠ "blue" ∧
    getPlanetColor 260 = "green" ∧
    getPlanetColor 150 = "blue" ∧
    getPlanetColor 500 = "red" := by
  refine ⟨fun t => ?_, by decide, by decide, by decide, by decide⟩
  unfold getPlanetColor colorBandSpec
  split_ifs <;> first | rfl | linarith

/-- C8: for every temperature exactly one of the three regimes `<220K`,
`[220K, 280K)`, `≥280K` applies, the returned composition is the fixed list
of that regime, and in every regime the component percentages sum to
exactly 100. -/
theorem generateAtmosphereData_sum :
    (∀ t : ℚ, ((generateAtmosphereData t).map AtmosphereComponent.percentage).sum = 100) ∧
    (∀ t : ℚ,
      (t < 220 ∧ generateAtmosphereData t =
        [⟨"N2", 45⟩, ⟨"CO2", 35⟩, ⟨"H2O", 15⟩, ⟨"CH4", 5⟩]) ∨
      (220 ≤ t ∧ t < 280 ∧ generateAtmosphereData t =
        [⟨"H2O", 40⟩, ⟨"N2", 30⟩, ⟨"CO2", 20⟩, ⟨"O2", 10⟩]) ∨
      (280 ≤ t ∧ generateAtmosphereData t =
        [⟨"CO2", 50⟩, ⟨"H2O", 25⟩, ⟨"N2", 15⟩, ⟨"SO2", 10⟩])) := by
  constructor
  · intro t
    unfold generateAtmosphereData
    split_ifs <;> norm_num
  · intro t
    unfold generateAtmosphereData
    split_ifs with h1 h2
    · exact Or.inl ⟨h1, rfl⟩
    · exact Or.inr (Or.inl ⟨not_lt.mp h1, h2, rfl⟩)
    · exact Or.inr (Or.inr ⟨not_lt.mp h2, rfl⟩)

/-- C9: texture-variant selection is a deterministic pure function of the
pair (identifier, temperature) — two invocations with identical inputs give
identical output — and the selected texture is the entry of the temperature
band list at index `charCodeSum identifier % 5`. -/
theorem getTextureForTemperature_deterministic :
    ∀ (temp : ℚ) (planetId : String),
      getTextureForTemperature temp planetId = getTextureForTemperature temp planetId ∧
      getTextureForTemperature temp planetId =
        (textureBand temp).getD (charCodeSum planetId % 5) "" := by
  intro temp planetId
  refine ⟨rfl, ?_⟩
  unfold getTextureForTemperature textureBand
  simp only [Nat.add_sub_cancel]
  split_ifs <;> rfl

/-- A generated scene object, `UniversePlanetData` in `Explorer.tsx`
(lines 53-66).  `position` is the real 3-vector `(x, y, z)`. -/
structure UniversePlanetData where
  id : String
  name : String
  position : ℝ × ℝ × ℝ
  radius : ℚ
  color : String
  temperature : ℚ
  period : ℚ
  stats : List StatEntry

/-- The placement angle of the object at `index`, `Explorer.tsx` line 115:
`(index / 50) * Math.PI * 12`.  The divisor is the constant cap 50. -/
noncomputable def planetAngle (index : ℕ) : ℝ :=
  ((index : ℝ) / 50) * Real.pi * 12

/-- The placement angle the spec sentence states: `(i / N) * 12π` where `N`
is the actual number of generated objects.  Comparison definition written
from the spec words for claim C3. -/
noncomputable def specAngle (i n : ℕ) : ℝ :=
  ((i : ℝ) / (n : ℝ)) * (12 * Real.pi)

/-- The orbital-ring radius of the object at `index`, `Explorer.tsx`
line 116: `112.5 + (index % 7) * 93.75`. -/
def ringRadius (index : ℕ) : ℚ :=
  112.5 + ((index % 7 : ℕ) : ℚ) * 93.75

/-- The vertical offset of the object at `index`, `Explorer.tsx` line 117:
`(Math.random() - 0.5) * 150`, with the draw for `index` read from the
stream. -/
def planetHeight (rand : ℕ → ℚ) (index : ℕ) : ℚ :=
  (rand index - 0.5) * 150

/-- The scene object built from one record, the body of the `map` callback
in `generateUniversePlanets` (`Explorer.tsx`, lines 113-139). -/
noncomputable def planetAt (rand : ℕ → ℚ) (index : ℕ)
    (nasaPlanet : NASAExoplanetData) : UniversePlanetData :=
  let angle := planetAngle index
  let radius := ringRadius index
  let height := planetHeight rand index
  { id := nasaPlanet.kepoi_name
    name := nasaPlanet.kepoi_name
    position := (Real.cos angle * (radius : ℝ), ((height : ℚ) : ℝ),
                 Real.sin angle * (radius : ℝ))
    radius := max 0.5 (min 3 nasaPlanet.koi_prad)
    color := getPlanetColor nasaPlanet.koi_teq
    temperature := nasaPlanet.koi_teq
    period := nasaPlanet.koi_period
    stats := [
      ⟨"Radius", toFixed nasaPlanet.koi_prad 2, "R⊕"⟩,
      ⟨"Period", toFixed nasaPlanet.koi_period 1, "days"⟩,
      ⟨"Temperature", jsNumToString nasaPlanet.koi_teq, "K"⟩,
      ⟨"Star Temp", jsNumToString nasaPlanet.koi_steff, "K"⟩,
      ⟨"Star Radius", toFixed nasaPlanet.koi_srad 2, "R☉"⟩,
      ⟨"Irradiation", toFixed nasaPlanet.koi_insol 2, "S⊕"⟩] }

/-- `generateUniversePlanets` from `Explorer.tsx` (lines 112-143):
`nasaData.slice(0, 50).map((nasaPlanet, index) => ...)`. -/
noncomputable def generateUniversePlanets (rand : ℕ → ℚ)
    (nasaData : List NASAExoplanetData) : List UniversePlanetData :=
  (nasaData.take 50).enum.map (fun ip => planetAt rand ip.1 ip.2)

/-- The horizontal (xz-plane) distance of a position from the origin. -/
noncomputable def horizontalRingRadius (pos : ℝ × ℝ × ℝ) : ℝ :=
  Real.sqrt (pos.1 ^ 2 + pos.2.2 ^ 2)

theorem generateUniversePlanets_length (rand : ℕ → ℚ)
    (recs : List NASAExoplanetData) :
    (generateUniversePlanets rand recs).length = min recs.length 50 := by
  unfold generateUniversePlanets
  rw [List.length_map, List.enum_length, List.length_take, Nat.min_comm]

theorem generateUniversePlanets_getElem? (rand : ℕ → ℚ)
    (recs : List NASAExoplanetData) (i : ℕ) (h : i < min recs.length 50) :
    (generateUniversePlanets rand recs)[i]? =
      (recs[i]?).map (planetAt rand i) := by
  unfold generateUniversePlanets
  rw [List.getElem?_map, List.getElem?_enum, List.getElem?_take]
  rw [if_pos (lt_min_iff.mp h).2]
  rw [List.getElem?_eq_getElem (lt_min_iff.mp h).1]
  rfl

theorem generateUniversePlanets_map_id (rand : ℕ → ℚ)
    (recs : List NASAExoplanetData) :
    (generateUniversePlanets rand recs).map UniversePlanetData.id =
      (recs.take 50).map NASAExoplanetData.kepoi_name := by
  unfold generateUniversePlanets
  rw [List.map_map]
  have hfun : (UniversePlanetData.id ∘ fun ip : ℕ × NASAExoplanetData =>
      planetAt rand ip.1 ip.2) = (NASAExoplanetData.kepoi_name ∘ Prod.snd) := rfl
  rw [hfun, ← List.map_map, List.enum_map_snd]

/-- C1: for every record list of length N the generation truncates to the
leading `min(N, 50)` records and produces exactly that many scene objects;
the object at index i has identifier and name equal to the i-th source
record identifier, and the generated identifiers are pairwise distinct
whenever the source identifiers are. -/
theorem generateUniversePlanets_spec (rand : ℕ → ℚ)
    (recs : List NASAExoplanetData) :
    (generateUniversePlanets rand recs).length = min recs.length 50 ∧
    (∀ i, i < min recs.length 50 →
      ((generateUniversePlanets rand recs)[i]?).map UniversePlanetData.id =
        (recs[i]?).map NASAExoplanetData.kepoi_name ∧
      ((generateUniversePlanets rand recs)[i]?).map UniversePlanetData.name =
        (recs[i]?).map NASAExoplanetData.kepoi_name) ∧
    ((recs.map NASAExoplanetData.kepoi_name).Nodup →
      ((generateUniversePlanets rand recs).map UniversePlanetData.id).Nodup) := by
  refine ⟨generateUniversePlanets_length rand recs, fun i hi => ?_, fun hnd => ?_⟩
  · rw [generateUniversePlanets_getElem? rand recs i hi, Option.map_map, Option.map_map]
    constructor <;> rfl
  · rw [generateUniversePlanets_map_id]
    exact hnd.sublist (List.Sublist.map _ (List.take_sublist 50 recs))

/-- A synthetic source record used for concrete witnesses. -/
def sampleRecord (nm : String) (teq : ℚ) : NASAExoplanetData :=
  { kepoi_name := nm, koi_period := 10, koi_prad := 1, koi_teq := teq,
    koi_steff := 5778, koi_srad := 1, koi_insol := 1,
    koi_disposition := "CANDIDATE", koi_kepmag := 12,
    ra_str := "19h00m00s", dec_str := "+40d00m00s" }

/-- The constant-zero randomness stream used for concrete witnesses. -/
def randZero : ℕ → ℚ := fun _ => 0

/-- A concrete two-record dataset used for concrete witnesses. -/
def recsAB : List NASAExoplanetData :=
  [sampleRecord "K00001.01" 250, sampleRecord "K00002.01" 300]

/-- The 50 synthetic records "P0".."P49" of the end-to-end scenario in the spec. -/
def records50 : List NASAExoplanetData :=
  (List.range 50).map (fun n => sampleRecord ("P" ++ toString n) 250)

theorem generateUniversePlanets_spec_witness :
    (generateUniversePlanets randZero recsAB).length = min recsAB.length 50 ∧
    ((generateUniversePlanets randZero recsAB)[1]?).map UniversePlanetData.id =
      (recsAB[1]?).map NASAExoplanetData.kepoi_name ∧
    ((generateUniversePlanets randZero recsAB).map UniversePlanetData.id).Nodup :=
  ⟨(generateUniversePlanets_spec randZero recsAB).1,
   ((generateUniversePlanets_spec randZero recsAB).2.1 1 (by decide)).1,
   (generateUniversePlanets_spec randZero recsAB).2.2 (by decide)⟩

/-- C3 counterexample: over the two-record dataset (N = 2) the object at
index 1 is placed with the angle of the code, `planetAngle 1 = (1/50)·12π`,
which is not the claimed `(1/2)·12π = specAngle 1 2`; the angular step does not
adapt to the actual object count. -/
theorem planetAngle_not_adaptive :
    (generateUniversePlanets randZero recsAB).length = 2 ∧
    ((generateUniversePlanets randZero recsAB)[1]?).map UniversePlanetData.position =
      some (Real.cos (planetAngle 1) * ((ringRadius 1 : ℚ) : ℝ),
            ((planetHeight randZero 1 : ℚ) : ℝ),
            Real.sin (planetAngle 1) * ((ringRadius 1 : ℚ) : ℝ)) ∧
    planetAngle 1 ≠ specAngle 1 2 := by
  refine ⟨?_, ?_, ?_⟩
  · rw [generateUniversePlanets_length]; rfl
  · rw [generateUniversePlanets_getElem? randZero recsAB 1 (by decide)]
    rfl
  · intro h
    unfold planetAngle specAngle at h
    push_cast at h
    have hpi := Real.pi_pos
    linarith

/-- C3 amended: the placement angle of the object at index i is always
`(i/50)·12π` — the divisor is the constant cap 50, not the actual object
count N — and it coincides with the claimed `(i/N)·12π` exactly when the cap
is saturated, i.e. when at least 50 records are supplied (N = 50). -/
theorem planetAngle_uses_cap (rand : ℕ → ℚ) (recs : List NASAExoplanetData)
    (i : ℕ) (hi : i < min recs.length 50) :
    ((generateUniversePlanets rand recs)[i]?).map UniversePlanetData.position =
      some (Real.cos (planetAngle i) * ((ringRadius i : ℚ) : ℝ),
            ((planetHeight rand i : ℚ) : ℝ),
            Real.sin (planetAngle i) * ((ringRadius i : ℚ) : ℝ)) ∧
    (50 ≤ recs.length → planetAngle i = specAngle i (min recs.length 50)) := by
  constructor
  · rw [generateUniversePlanets_getElem? rand recs i hi,
      List.getElem?_eq_getElem (lt_min_iff.mp hi).1]
    rfl
  · intro hfull
    rw [min_eq_right hfull]
    unfold planetAngle specAngle
    push_cast
    ring

theorem planetAngle_uses_cap_witness :
    ((generateUniversePlanets randZero records50)[7]?).map UniversePlanetData.position =
      some (Real.cos (planetAngle 7) * ((ringRadius 7 : ℚ) : ℝ),
            ((planetHeight randZero 7 : ℚ) : ℝ),
            Real.sin (planetAngle 7) * ((ringRadius 7 : ℚ) : ℝ)) ∧
    planetAngle 7 = specAngle 7 (min records50.length 50) :=
  ⟨(planetAngle_uses_cap randZero records50 7 (by decide)).1,
   (planetAngle_uses_cap randZero records50 7 (by decide)).2 (by decide)⟩

theorem horizontalRingRadius_planetAt (rand : ℕ → ℚ) (i : ℕ)
    (p : NASAExoplanetData) :
    horizontalRingRadius (planetAt rand i p).position = ((ringRadius i : ℚ) : ℝ) := by
  have hq : (0 : ℚ) ≤ ringRadius i := by
    unfold ringRadius
    positivity
  have hr : (0 : ℝ) ≤ ((ringRadius i : ℚ) : ℝ) := by exact_mod_cast hq
  show Real.sqrt ((Real.cos (planetAngle i) * ((ringRadius i : ℚ) : ℝ)) ^ 2 +
      (Real.sin (planetAngle i) * ((ringRadius i : ℚ) : ℝ)) ^ 2) = ((ringRadius i : ℚ) : ℝ)
  have h : (Real.cos (planetAngle i) * ((ringRadius i : ℚ) : ℝ)) ^ 2 +
      (Real.sin (planetAngle i) * ((ringRadius i : ℚ) : ℝ)) ^ 2 =
      ((ringRadius i : ℚ) : ℝ) ^ 2 := by
    nlinarith [Real.cos_sq_add_sin_sq (planetAngle i)]
  rw [h, Real.sqrt_sq hr]

/-- C4: the horizontal (xz-plane) ring radius of every generated object at
index i equals `112.5 + (i mod 7) · 93.75`, the ring radius is periodic in
the index with period 7, and in the concrete 50-record scenario
"P0".."P49" the objects at indices 0 and 7 have equal ring radius. -/
theorem ringRadius_periodic_spec :
    (∀ (rand : ℕ → ℚ) (recs : List NASAExoplanetData) (i : ℕ),
      i < min recs.length 50 →
      ((generateUniversePlanets rand recs)[i]?).map
          (fun p => horizontalRingRadius p.position) =
        some ((112.5 + ((i % 7 : ℕ) : ℚ) * 93.75 : ℚ) : ℝ)) ∧
    (∀ i : ℕ, ringRadius (i + 7) = ringRadius i) ∧
    ((generateUniversePlanets randZero records50)[0]?).map
        (fun p => horizontalRingRadius p.position) =
      ((generateUniversePlanets randZero records50)[7]?).map
        (fun p => horizontalRingRadius p.position) := by
  have key : ∀ (rand : ℕ → ℚ) (recs : List NASAExoplanetData) (i : ℕ),
      i < min recs.length 50 →
      ((generateUniversePlanets rand recs)[i]?).map
          (fun p => horizontalRingRadius p.position) =
        some ((112.5 + ((i % 7 : ℕ) : ℚ) * 93.75 : ℚ) : ℝ) := by
    intro rand recs i hi
    rw [generateUniversePlanets_getElem? rand recs i hi,
      List.getElem?_eq_getElem (lt_min_iff.mp hi).1]
    simp only [Option.map_some']
    rw [horizontalRingRadius_planetAt]
    rfl
  refine ⟨key, fun i => ?_, ?_⟩
  · unfold ringRadius
    rw [Nat.add_mod_right]
  · rw [key randZero records50 0 (by decide), key randZero records50 7 (by decide)]

theorem ringRadius_periodic_spec_witness :
    ((generateUniversePlanets randZero recsAB)[1]?).map
        (fun p => horizontalRingRadius p.position) =
      some ((112.5 + ((1 % 7 : ℕ) : ℚ) * 93.75 : ℚ) : ℝ) :=
  ringRadius_periodic_spec.1 randZero recsAB 1 (by decide)

/-- The clamp `max 0.5 (min 3 r)` applied to the source radius at
`Explorer.tsx` line 127 (`Math.max(0.5, Math.min(3, nasaPlanet.koi_prad))`). -/
def displayRadiusClamp (r : ℚ) : ℚ :=
  max 0.5 (min 3 r)

/-- C5: the display radius of every generated object equals
`clamp(source radius, 0.5, 3.0)`; the clamp always lies in `[0.5, 3.0]`,
is the identity on that interval, and is monotone non-decreasing in the
source radius. -/
theorem displayRadius_clamp_spec :
    (∀ (rand : ℕ → ℚ) (recs : List NASAExoplanetData) (i : ℕ),
      i < min recs.length 50 →
      ((generateUniversePlanets rand recs)[i]?).map UniversePlanetData.radius =
        (recs[i]?).map (fun p => displayRadiusClamp p.koi_prad)) ∧
    (∀ r : ℚ, 0.5 ≤ displayRadiusClamp r ∧ displayRadiusClamp r ≤ 3) ∧
    (∀ r : ℚ, 0.5 ≤ r → r ≤ 3 → displayRadiusClamp r = r) ∧
    (∀ r s : ℚ, r ≤ s → displayRadiusClamp r ≤ displayRadiusClamp s) := by
  refine ⟨fun rand recs i hi => ?_, fun r => ⟨?_, ?_⟩,
    fun r h1 h2 => ?_, fun r s hrs => ?_⟩
  · rw [generateUniversePlanets_getElem? rand recs i hi, Option.map_map]
    rfl
  · unfold displayRadiusClamp
    exact le_max_left _ _
  · unfold displayRadiusClamp
    exact max_le (by norm_num) (min_le_left _ _)
  · unfold displayRadiusClamp
    rw [min_eq_right h2, max_eq_right h1]
  · unfold displayRadiusClamp
    exact max_le_max le_rfl (min_le_min le_rfl hrs)

theorem displayRadius_clamp_spec_witness :
    (((generateUniversePlanets randZero recsAB)[0]?).map UniversePlanetData.radius =
      (recsAB[0]?).map (fun p => displayRadiusClamp p.koi_prad)) ∧
    (0.5 ≤ displayRadiusClamp 7 ∧ displayRadiusClamp 7 ≤ 3) ∧
    displayRadiusClamp 2 = 2 ∧
    displayRadiusClamp 1 ≤ displayRadiusClamp 2 :=
  ⟨displayRadius_clamp_spec.1 randZero recsAB 0 (by decide),
   displayRadius_clamp_spec.2.1 7,
   displayRadius_clamp_spec.2.2.1 2 (by norm_num) (by norm_num),
   displayRadius_clamp_spec.2.2.2 1 2 (by norm_num)⟩

/-- JavaScript `String.prototype.toLowerCase`, modelled on the character
sequence. -/
def jsToLower (s : String) : String :=
  String.mk (s.data.map Char.toLower)

/-- JavaScript `String.prototype.trim`: strip leading and trailing
whitespace. -/
def jsTrim (s : String) : String :=
  String.mk (((s.data.dropWhile Char.isWhitespace).reverse.dropWhile
    Char.isWhitespace).reverse)

/-- The two values of the `viewMode` state cell (`Explorer.tsx`, line 82). -/
inductive ViewMode where
  | universe
  | detailed
deriving DecidableEq, Repr

/-- A toast notification (title and description), as passed to `toast` in
`Explorer.tsx`. -/
structure Toast where
  title : String
  description : String
deriving DecidableEq, Repr

/-- The `useState` cells of the `Explorer` component (`Explorer.tsx`,
lines 76-84) gathered into one record. -/
structure ExplorerState where
  planetName : String
  exoplanetData : Option ExoplanetData
  isLoading : Bool
  availablePlanets : List NASAExoplanetData
  universePlanets : List UniversePlanetData
  selectedPlanet : Option UniversePlanetData
  viewMode : ViewMode
  searchQuery : String
  discoveredPlanets : Finset String

/-- `handlePlanetSelect` (`Explorer.tsx`, lines 165-169): select the planet,
copy its name, and add its id to the discovered set (`new Set(prev).add`). -/
def handlePlanetSelect (planet : UniversePlanetData) (s : ExplorerState) :
    ExplorerState :=
  { s with selectedPlanet := some planet,
           planetName := planet.name,
           discoveredPlanets := insert planet.id s.discoveredPlanets }

/-- `handleSearch` (`Explorer.tsx`, lines 171-182): store the query; when it
is non-empty, select the first planet whose lower-cased name contains the
lower-cased query, if any. -/
def handleSearch (query : String) (s : ExplorerState) : ExplorerState :=
  let s1 := { s with searchQuery := query }
  if query = "" then s1
  else
    match s.universePlanets.find?
        (fun p => strIncludes (jsToLower p.name) (jsToLower query)) with
    | some foundPlanet =>
        { s1 with selectedPlanet := some foundPlanet,
                  planetName := foundPlanet.name }
    | none => s1

/-- The overlay `onClose` handler (`Explorer.tsx`, line 431):
`setSelectedPlanet(null)`. -/
def closePlanetOverlay (s : ExplorerState) : ExplorerState :=
  { s with selectedPlanet := none }

/-- The user interactions of the universe view that drive the
selection/discovery state. -/
inductive ExplorerEvent where
  | select (planet : UniversePlanetData)
  | search (query : String)
  | close

/-- Dispatch of one event to its handler. -/
def applyEvent (s : ExplorerState) (e : ExplorerEvent) : ExplorerState :=
  match e with
  | .select planet => handlePlanetSelect planet s
  | .search query => handleSearch query s
  | .close => closePlanetOverlay s

/-- A session: a sequence of events applied in order. -/
def runEvents (events : List ExplorerEvent) (s : ExplorerState) : ExplorerState :=
  events.foldl applyEvent s

theorem applyEvent_discovered_subset (s : ExplorerState) (e : ExplorerEvent) :
    s.discoveredPlanets ⊆ (applyEvent s e).discoveredPlanets := by
  cases e with
  | select planet => exact Finset.subset_insert _ _
  | search query =>
      show s.discoveredPlanets ⊆ (handleSearch query s).discoveredPlanets
      unfold handleSearch
      split_ifs
      · exact Finset.Subset.refl _
      · cases s.universePlanets.find?
            (fun p => strIncludes (jsToLower p.name) (jsToLower query)) with
        | some foundPlanet => exact Finset.Subset.refl _
        | none => exact Finset.Subset.refl _
  | close => exact Finset.Subset.refl _

/-- C6: the discovered set is monotonic — an identifier present in the set
survives every further select/search/close sequence — and selection is
idempotent on it: selecting a planet whose id is already discovered leaves
the size of the set unchanged. -/
theorem discovered_monotone_spec :
    (∀ (events : List ExplorerEvent) (s : ExplorerState) (pid : String),
      pid ∈ s.discoveredPlanets → pid ∈ (runEvents events s).discoveredPlanets) ∧
    (∀ (planet : UniversePlanetData) (s : ExplorerState),
      planet.id ∈ s.discoveredPlanets →
      (handlePlanetSelect planet s).discoveredPlanets.card =
        s.discoveredPlanets.card) := by
  constructor
  · intro events
    induction events with
    | nil => intro s pid h; exact h
    | cons e rest ih =>
        intro s pid h
        exact ih (applyEvent s e) pid (applyEvent_discovered_subset s e h)
  · intro planet s h
    exact Finset.card_insert_of_mem h

/-- A concrete scene object used for concrete witnesses. -/
def samplePlanet : UniversePlanetData :=
  { id := "K00001.01", name := "K00001.01", position := (0, 0, 0),
    radius := 1, color := "green", temperature := 250, period := 10,
    stats := [] }

/-- A concrete session state used for concrete witnesses: `samplePlanet` is
selected and already discovered. -/
def sampleState : ExplorerState :=
  { planetName := "K00001.01", exoplanetData := none, isLoading := false,
    availablePlanets := recsAB, universePlanets := [samplePlanet],
    selectedPlanet := some samplePlanet, viewMode := .universe,
    searchQuery := "", discoveredPlanets := {"K00001.01"} }

theorem discovered_monotone_spec_witness :
    "K00001.01" ∈
      (runEvents [ExplorerEvent.close, ExplorerEvent.search "xyz"]
        sampleState).discoveredPlanets ∧
    (handlePlanetSelect samplePlanet sampleState).discoveredPlanets.card =
      sampleState.discoveredPlanets.card :=
  ⟨discovered_monotone_spec.1 [ExplorerEvent.close, ExplorerEvent.search "xyz"]
      sampleState "K00001.01" (by decide),
   discovered_monotone_spec.2 samplePlanet sampleState (by decide)⟩

/-- C7: with some planet selected, a non-empty search that matches no
planet name (case-insensitive substring test) changes only the stored
search string; the selection is untouched. -/
theorem search_no_match_frame (s : ExplorerState) (p : UniversePlanetData)
    (query : String) (hsel : s.selectedPlanet = some p) (hq : query ≠ "")
    (hnm : ∀ q ∈ s.universePlanets,
      strIncludes (jsToLower q.name) (jsToLower query) = false) :
    handleSearch query s = { s with searchQuery := query } ∧
    (handleSearch query s).selectedPlanet = some p := by
  have hfind : s.universePlanets.find?
      (fun q => strIncludes (jsToLower q.name) (jsToLower query)) = none := by
    rw [List.find?_eq_none]
    intro x hx
    simp [hnm x hx]
  have hmain : handleSearch query s = { s with searchQuery := query } := by
    unfold handleSearch
    rw [if_neg hq, hfind]
  refine ⟨hmain, ?_⟩
  rw [hmain, ← hsel]

theorem search_no_match_frame_witness :
    handleSearch "zzz" sampleState = { sampleState with searchQuery := "zzz" } ∧
    (handleSearch "zzz" sampleState).selectedPlanet = some samplePlanet :=
  search_no_match_frame sampleState samplePlanet "zzz" rfl (by decide)
    (by decide)

/-- `generateHabitabilityMetrics` (`Explorer.tsx`, lines 231-243); `r` is
the single `Math.random` draw of the water score. -/
def generateHabitabilityMetrics (r : ℚ) (planet : NASAExoplanetData) :
    List MetricEntry :=
  let tempScore := max 0 (min 100 (100 - |planet.koi_teq - 250| * 2))
  let radiusScore := max 0 (min 100 (100 - |planet.koi_prad - 1| * 30))
  let stellarScore := max 0 (min 100 (100 - |planet.koi_steff - 5778| / 100))
  let waterScore := if tempScore > 60 then r * 30 + 60 else r * 40 + 20
  [⟨"Water Presence", jsRound waterScore⟩,
   ⟨"Atmosphere", jsRound ((tempScore + radiusScore) / 2)⟩,
   ⟨"Temperature", jsRound tempScore⟩,
   ⟨"Stellar Radiation", jsRound stellarScore⟩]

/-- The detail payload built by the success branch of `generateExoplanet`
(`Explorer.tsx`, lines 271-307); `rand 0`, `rand 1`, `rand 2` are the
temperature-history draws and `rand 3` the water-score draw, in call
order. -/
def buildExoplanetData (rand : ℕ → ℚ) (nasaPlanet : NASAExoplanetData) :
    ExoplanetData :=
  let esi := max 0 (min 1 (1 - |nasaPlanet.koi_prad - 1| * (3/10) -
    |nasaPlanet.koi_teq - 255| / 300))
  { name := nasaPlanet.kepoi_name
    keyPoints := [
      "Orbits " ++ jsNumToString nasaPlanet.koi_steff ++ "K star every " ++
        toFixed nasaPlanet.koi_period 1 ++ " days",
      "Planet radius is " ++ toFixed nasaPlanet.koi_prad 2 ++
        " times Earth\x27s radius",
      "Equilibrium temperature of " ++ jsNumToString nasaPlanet.koi_teq ++ "K",
      "Receives " ++ toFixed nasaPlanet.koi_insol 2 ++
        " times Earth\x27s solar irradiation",
      "Located at coordinates " ++ nasaPlanet.ra_str ++ ", " ++
        nasaPlanet.dec_str]
    stats := [
      ⟨"Radius", toFixed nasaPlanet.koi_prad 2, "R⊕"⟩,
      ⟨"Period", toFixed nasaPlanet.koi_period 1, "days"⟩,
      ⟨"Temperature", jsNumToString nasaPlanet.koi_teq, "K"⟩,
      ⟨"Star Temp", jsNumToString nasaPlanet.koi_steff, "K"⟩,
      ⟨"Star Radius", toFixed nasaPlanet.koi_srad 2, "R☉"⟩,
      ⟨"ESI", toFixed esi 2, ""⟩]
    color := getPlanetColor nasaPlanet.koi_teq
    temperature := nasaPlanet.koi_teq
    atmosphereData := generateAtmosphereData nasaPlanet.koi_teq
    temperatureHistory := [
      ⟨"Present", nasaPlanet.koi_teq⟩,
      ⟨"1M years", nasaPlanet.koi_teq - rand 0 * 10⟩,
      ⟨"10M years", nasaPlanet.koi_teq - rand 1 * 20⟩,
      ⟨"100M years", nasaPlanet.koi_teq - rand 2 * 30⟩]
    habitabilityMetrics := generateHabitabilityMetrics (rand 3) nasaPlanet }

/-- The bidirectional case-insensitive substring match of
`generateExoplanet` (`Explorer.tsx`, lines 262-265). -/
def planetNameMatches (planetName : String) (p : NASAExoplanetData) : Bool :=
  strIncludes (jsToLower p.kepoi_name) (jsToLower planetName) ||
  strIncludes (jsToLower planetName) (jsToLower p.kepoi_name)

/-- `generateExoplanet` (`Explorer.tsx`, lines 245-325) as a state
transition returning the new state and the toast it surfaces.  The loading
flag is set at entry and reset in the `finally` block; the model records
the value the flag has when the function terminates (the blank-name guard
returns before touching it).  The 2-second cosmetic delay is not
modelled. -/
def generateExoplanet (rand : ℕ → ℚ) (s : ExplorerState) :
    ExplorerState × Toast :=
  if jsTrim s.planetName = "" then
    (s, ⟨"Planet Name Required",
         "Please enter an exoplanet name or generate a random one."⟩)
  else
    match s.availablePlanets.find? (planetNameMatches s.planetName) with
    | none =>
        ({ s with isLoading := false },
         ⟨"Planet Not Found",
          "This planet is not in the NASA habitable zone database. Try a random one!"⟩)
    | some nasaPlanet =>
        ({ s with isLoading := false,
                  exoplanetData := some (buildExoplanetData rand nasaPlanet) },
         ⟨"Exoplanet Found!",
          "Real NASA data loaded for " ++ nasaPlanet.kepoi_name⟩)

/-- C10: detail-view generation is atomic on failure — when the entered
name is blank after trimming, or matches no cached record under the
bidirectional case-insensitive substring test, `generateExoplanet` leaves
`exoplanetData` (and, on the blank path, the whole state) unchanged,
surfaces only a notification toast, and terminates with the loading flag
false whenever it was false at entry (on the no-match path it is reset to
false unconditionally). -/
theorem generateExoplanet_failure_atomic (rand : ℕ → ℚ) (s : ExplorerState)
    (hfail : jsTrim s.planetName = "" ∨
      (jsTrim s.planetName ≠ "" ∧
        s.availablePlanets.find? (planetNameMatches s.planetName) = none)) :
    (generateExoplanet rand s).1.exoplanetData = s.exoplanetData ∧
    (jsTrim s.planetName = "" → generateExoplanet rand s =
      (s, ⟨"Planet Name Required",
           "Please enter an exoplanet name or generate a random one."⟩)) ∧
    (jsTrim s.planetName ≠ "" → generateExoplanet rand s =
      ({ s with isLoading := false },
       ⟨"Planet Not Found",
        "This planet is not in the NASA habitable zone database. Try a random one!"⟩)) ∧
    (s.isLoading = false → (generateExoplanet rand s).1.isLoading = false) := by
  rcases hfail with hblank | ⟨hne, hnone⟩
  · unfold generateExoplanet
    rw [if_pos hblank]
    exact ⟨rfl, fun _ => rfl, fun hne => absurd hblank hne, fun h => h⟩
  · unfold generateExoplanet
    rw [if_neg hne, hnone]
    exact ⟨rfl, fun hb => absurd hb hne, fun _ => rfl, fun _ => rfl⟩

/-- A concrete session state whose entered planet name matches no cached
record. -/
def sampleStateSearch : ExplorerState :=
  { sampleState with planetName := "zzz" }

theorem generateExoplanet_failure_atomic_witness :
    (generateExoplanet randZero sampleStateSearch).1.exoplanetData =
      sampleStateSearch.exoplanetData ∧
    generateExoplanet randZero sampleStateSearch =
      ({ sampleStateSearch with isLoading := false },
       ⟨"Planet Not Found",
        "This planet is not in the NASA habitable zone database. Try a random one!"⟩) ∧
    (generateExoplanet randZero sampleStateSearch).1.isLoading = false :=
  ⟨(generateExoplanet_failure_atomic randZero sampleStateSearch
      (Or.inr ⟨by decide, by decide⟩)).1,
   (generateExoplanet_failure_atomic randZero sampleStateSearch
      (Or.inr ⟨by decide, by decide⟩)).2.2.1 (by decide),
   (generateExoplanet_failure_atomic randZero sampleStateSearch
      (Or.inr ⟨by decide, by decide⟩)).2.2.2 (by decide)⟩
